import Mathlib

/-!
Verification of the anova-oven client.

This file gives a shallow embedding of the parts of the repository that the
properties below are about:

* `client.py` — `AnovaController.continuous_message_listener`,
  `process_device_discovery`, `wait_for_device_discovery` and
  `send_command_and_wait_for_response`;
* `models.py` — the pydantic/dataclass models `HeatingElements`, `TempSetPoint`,
  `TempBulb`, `Fan`, `Vent`, `SteamGenerators`, `Probe` and `Stage`, with their
  field bounds and `model_validator` checks turned into `Except`-returning
  constructors (a raised `ValidationError` becomes `Except.error`);
* `cooks.py` / `controller.py` — `start_sous_vide_cook`'s ceiling check and
  Fahrenheit-to-Celsius conversion.

Python floats are modelled as rationals (the temperatures involved are exact in
both representations).  Time is modelled by traces: the polling loops of
`wait_for_device_discovery` and `send_command_and_wait_for_response` consume a
list of snapshots of `message_history`, one snapshot per executed poll
iteration (the iterations the 5s / 10s deadline admits); the list being
exhausted is the deadline elapsing.  The background listener is modelled as a
step function over inbound transport events.
-/

namespace AnovaOven

/-- Python's `str.startswith`, on the character lists of the two strings. -/
def strStartsWith (pre s : String) : Bool :=
  List.isPrefixOf pre.data s.data

/-- One entry of a discovery event payload: the fields of a device descriptor
that `process_device_discovery` reads.  `name` and `dtype` are `Option` because
the source accesses them with `device.get(..., default)`; `cookerId` is read
unconditionally. -/
structure DeviceDescriptor where
  cookerId : String
  name : Option String := none
  dtype : Option String := none
deriving DecidableEq

/-- The dict appended to `self.devices` by the discovery code. -/
structure Device where
  id : String
  name : String
  type : String
  device_type : String
deriving DecidableEq

/-- The parsed JSON object of one inbound frame, as the client reads it:
`command` is `data.get("command", "")` (absent field becomes `""`), and
`payload`, when present, is the list of device descriptors that the discovery
code iterates over (`"payload" in data` is `payload.isSome`). -/
structure WsData where
  command : String := ""
  payload : Option (List DeviceDescriptor) := none
deriving DecidableEq

/-! ## Device discovery (`client.py`, `process_device_discovery`) -/

/-- The body of the `for device in data["payload"]` loop: append a new device
dict unless `any(d["id"] == device["cookerId"] for d in self.devices)`. -/
def add_device (devices : List Device) (defaultName family : String)
    (desc : DeviceDescriptor) : List Device :=
  if devices.any (fun d => d.id == desc.cookerId) then devices
  else devices ++ [{ id := desc.cookerId,
                     name := desc.name.getD defaultName,
                     type := family,
                     device_type := desc.dtype.getD "unknown" }]

/-- Model of `AnovaController.process_device_discovery`: dispatch on the two discovery
event kinds and fold the payload descriptors into the device list. -/
def process_device_discovery (devices : List Device) (data : WsData) :
    List Device :=
  if data.command == "EVENT_APC_WIFI_LIST" && data.payload.isSome then
    (data.payload.getD []).foldl
      (fun ds desc => add_device ds "Anova Precision Cooker" "APC" desc) devices
  else if data.command == "EVENT_APO_WIFI_LIST" && data.payload.isSome then
    (data.payload.getD []).foldl
      (fun ds desc => add_device ds "Anova Precision Oven" "APO" desc) devices
  else devices

/-- Model of `AnovaController.wait_for_device_discovery`: each executed poll iteration
rescans the full `message_history` (one snapshot per iteration), running the
same per-message discovery logic, then breaks out of the wait as soon as
`self.devices` is non-empty; when the 5-second deadline elapses (the snapshot
trace is exhausted) it returns normally with whatever devices are known.  The
source wraps the loop in `try/except` that only logs, so the wait never raises;
here it is a total function into `List Device`. -/
def wait_for_device_discovery (snapshots : List (List WsData))
    (devices : List Device) : List Device :=
  match snapshots with
  | [] => devices
  | h :: rest =>
      let d := h.foldl process_device_discovery devices
      if d.isEmpty then wait_for_device_discovery rest d else d

/-! ## Command/response correlation (`client.py`,
`send_command_and_wait_for_response`) -/

/-- The response classifier applied to `data.get("command", "")` of each
message appended after the send:
`command.startswith("RESPONSE") or (command.startswith("CMD_") and not
command.startswith("CMD_STATE")) or command == "EVENT_EXPORT_READY"`. -/
def isResponseMatch (command : String) : Bool :=
  strStartsWith "RESPONSE" command ||
    (strStartsWith "CMD_" command && !strStartsWith "CMD_STATE" command) ||
    command == "EVENT_EXPORT_READY"

/-- Model of `AnovaController.send_command_and_wait_for_response` after the send:
`initial_count` is `len(self.message_history)` recorded before transmitting;
each executed poll iteration scans `self.message_history[initial_count:]` in
order and returns the first message the classifier accepts (the source displays
it and returns `True`); if the trace of history snapshots is exhausted the
10-second timeout has elapsed and the call returns the timeout failure
(`False` in the source, `none` here). -/
def send_command_and_wait_for_response (snapshots : List (List WsData))
    (initial_count : Nat) : Option WsData :=
  match snapshots with
  | [] => none
  | h :: rest =>
      match (h.drop initial_count).find? (fun m => isResponseMatch m.command) with
      | some m => some m
      | none => send_command_and_wait_for_response rest initial_count

/-! ## Background listener (`client.py`, `continuous_message_listener`) -/

/-- One observable event of the receive loop: a frame whose text parses as JSON
(`frame (some data)`), a frame whose text `json.loads` rejects (`frame none`),
the 30-second `asyncio.wait_for` timeout, or the websocket closing. -/
inductive ListenerEvent where
  | frame (parsed : Option WsData)
  | recvTimeout
  | connectionClosed
deriving DecidableEq

/-- The controller state the listener touches, plus whether the listener loop
has terminated (the coroutine returned). -/
structure ListenerState where
  message_history : List WsData := []
  devices : List Device := []
  terminated : Bool := false
deriving DecidableEq

/-- One iteration of `continuous_message_listener`.  The inner `try` catches
only `asyncio.TimeoutError` (liveness log, `continue`); a parse failure raised
by `json.loads` propagates out of the `while True` loop to the outer
`except Exception`, which logs the traceback and falls off the end of the
coroutine, as does `websockets.exceptions.ConnectionClosed` — in both cases the
loop terminates and later events are never processed. -/
def continuous_message_listener_step (st : ListenerState) (ev : ListenerEvent) :
    ListenerState :=
  if st.terminated then st
  else
    match ev with
    | .recvTimeout => st
    | .connectionClosed => { st with terminated := true }
    | .frame none => { st with terminated := true }
    | .frame (some data) =>
        { st with
          message_history := st.message_history ++ [data],
          devices := process_device_discovery st.devices data }

/-- The listener run on a sequence of transport events. -/
def continuous_message_listener (st : ListenerState) (evs : List ListenerEvent) :
    ListenerState :=
  evs.foldl continuous_message_listener_step st

/-! ## Cook models (`models.py`) -/

/-- Model of `BulbModes`. -/
inductive BulbModes where
  | DRY
  | WET
deriving DecidableEq

/-- Model of `HeatingElements.STATE`; the source field is named `on`, a Lean keyword,
kept here as `on_`. -/
structure HeatingElements.STATE where
  on_ : Bool
deriving DecidableEq

/-- Model of `HeatingElements`. -/
structure HeatingElements where
  top : HeatingElements.STATE
  bottom : HeatingElements.STATE
  rear : HeatingElements.STATE
deriving DecidableEq

/-- Model of `HeatingElements.is_bottom_only`. -/
def HeatingElements.is_bottom_only (self : HeatingElements) : Bool :=
  self.bottom.on_ && !self.top.on_ && !self.rear.on_

/-- Model of `HeatingElements.top_only`. -/
def HeatingElements.top_only : HeatingElements :=
  { bottom := { on_ := false }, top := { on_ := true }, rear := { on_ := false } }

/-- Model of `HeatingElements.rear_only`. -/
def HeatingElements.rear_only : HeatingElements :=
  { bottom := { on_ := false }, top := { on_ := false }, rear := { on_ := true } }

/-- Model of `HeatingElements.bottom_only`. -/
def HeatingElements.bottom_only : HeatingElements :=
  { bottom := { on_ := true }, top := { on_ := false }, rear := { on_ := false } }

/-- Model of `HeatingElements.top_and_rear`. -/
def HeatingElements.top_and_rear : HeatingElements :=
  { bottom := { on_ := false }, top := { on_ := true }, rear := { on_ := true } }

/-- Model of `HeatingElements.top_and_bottom`. -/
def HeatingElements.top_and_bottom : HeatingElements :=
  { bottom := { on_ := true }, top := { on_ := true }, rear := { on_ := false } }

/-- Model of `TempSetPoint.SetPoint`: `celsius: float = Field(ge=25, le=250)`. -/
structure SetPoint where
  celsius : ℚ
deriving DecidableEq

/-- Construction of a `TempSetPoint.SetPoint`; pydantic validates the field
bound `ge=25, le=250` at construction and raises `ValidationError` outside
it. -/
def SetPoint.construct (celsius : ℚ) : Except String SetPoint :=
  if 25 ≤ celsius ∧ celsius ≤ 250 then .ok { celsius }
  else .error "celsius must be between 25 and 250"

/-- Model of `TempSetPoint`. -/
structure TempSetPoint where
  setpoint : SetPoint
deriving DecidableEq

/-- Model of `TempBulb` (field order as in the source dataclass: `mode`, `dry`,
`wet`). -/
structure TempBulb where
  mode : BulbModes
  dry : Option TempSetPoint := none
  wet : Option TempSetPoint := none
deriving DecidableEq

/-- Model of `TempBulb.check_mutual_exclusivity`, the `model_validator(mode='after')`:
the three `raise` guards in source order.  The third guard
(`self.mode == WET and (self.wet.setpoint.celsius > 100 or ... < 25)`)
dereferences `self.wet` only when `mode == WET`, in which case the second guard
has already ensured `wet is not None`; the guards that already raised make the
`WET, none` shape unreachable at the third check, so it falls into the
no-raise arm. -/
def TempBulb.check_mutual_exclusivity (self : TempBulb) :
    Except String TempBulb :=
  if self.mode = BulbModes.DRY ∧ (self.wet ≠ none ∨ self.dry = none) then
    .error "bad dry temp settings"
  else if self.mode = BulbModes.WET ∧ (self.dry ≠ none ∨ self.wet = none) then
    .error "bad wet temp settings"
  else
    match self.mode, self.wet with
    | BulbModes.WET, some w =>
        if 100 < w.setpoint.celsius ∨ w.setpoint.celsius < 25 then
          .error "temp must be between 25-100 C when in sous vide mode"
        else .ok self
    | _, _ => .ok self

/-- Construction of a `TempBulb`: pydantic builds the value and then runs the
`model_validator`. -/
def TempBulb.construct (mode : BulbModes) (dry wet : Option TempSetPoint) :
    Except String TempBulb :=
  TempBulb.check_mutual_exclusivity { mode, dry, wet }

/-- Model of `TempBulb.wet_bulb`: the nested `SetPoint(celsius=temp)` is constructed
first (validating its 25-250 field bound; a `ValidationError` there fails the
whole construction) and the bulb is built in wet mode. -/
def TempBulb.wet_bulb (temp : ℚ) : Except String TempBulb :=
  match SetPoint.construct temp with
  | .error e => .error e
  | .ok sp => TempBulb.construct BulbModes.WET none (some { setpoint := sp })

/-- Model of `TempBulb.dry_bulb`. -/
def TempBulb.dry_bulb (temp : ℚ) : Except String TempBulb :=
  match SetPoint.construct temp with
  | .error e => .error e
  | .ok sp => TempBulb.construct BulbModes.DRY (some { setpoint := sp }) none

/-- Model of `Fan`: `speed: int = Field(ge=0, le=100)`. -/
structure Fan where
  speed : Int
deriving DecidableEq

/-- Construction of a `Fan`, validating the field bound. -/
def Fan.construct (speed : Int) : Except String Fan :=
  if 0 ≤ speed ∧ speed ≤ 100 then .ok { speed }
  else .error "speed must be between 0 and 100"

/-- Model of `Vent`; the source field is named `open`, a Lean keyword, kept here as
`open_`. -/
structure Vent where
  open_ : Bool := false
deriving DecidableEq

/-- Model of `SteamMode`. -/
inductive SteamMode where
  | IDLE
  | RELATIVE
  | PERCENTAGE
deriving DecidableEq

/-- Model of `SteamSetPoint`: `setpoint: int = Field(ge=0, le=100)`. -/
structure SteamSetPoint where
  setpoint : Int
deriving DecidableEq

/-- Construction of a `SteamSetPoint`, validating the field bound. -/
def SteamSetPoint.construct (setpoint : Int) : Except String SteamSetPoint :=
  if 0 ≤ setpoint ∧ setpoint ≤ 100 then .ok { setpoint }
  else .error "setpoint must be between 0 and 100"

/-- Model of `SteamGenerators`. -/
structure SteamGenerators where
  mode : SteamMode
  relativeHumidity : SteamSetPoint
deriving DecidableEq

/-- Model of `SteamGenerators.sous_vide`. -/
def SteamGenerators.sous_vide (steam_percentage : Int) :
    Except String SteamGenerators :=
  match SteamSetPoint.construct steam_percentage with
  | .error e => .error e
  | .ok sp => .ok { mode := SteamMode.RELATIVE, relativeHumidity := sp }

/-- Model of `SteamGenerators.no_steam` (its setpoint `0` always passes validation). -/
def SteamGenerators.no_steam : SteamGenerators :=
  { mode := SteamMode.IDLE, relativeHumidity := { setpoint := 0 } }

/-- Model of `Probe.SetPoint`: `celsius: float = Field(ge=1, le=100)`. -/
structure ProbeSetPoint where
  celsius : ℚ
deriving DecidableEq

/-- Model of `Probe`. -/
structure Probe where
  setpoint : ProbeSetPoint
deriving DecidableEq

/-- Model of `Probe.__init__(temp)`, validating the nested field bound. -/
def Probe.construct (temp : ℚ) : Except String Probe :=
  if 1 ≤ temp ∧ temp ≤ 100 then .ok { setpoint := { celsius := temp } }
  else .error "celsius must be between 1 and 100"

/-- Model of `Stage.Type`. -/
inductive StageType where
  | PREHEAT
  | COOK
deriving DecidableEq

/-- Model of `Stage.Transition`. -/
inductive StageTransition where
  | AUTO
  | MANUAL
deriving DecidableEq

/-- Model of `Stage` (UUIDs modelled as `Nat`). -/
structure Stage where
  id : Nat
  title : String
  description : String
  type : StageType
  userActionRequired : Bool
  temperatureBulbs : TempBulb
  heatingElements : HeatingElements
  fan : Fan
  rackPosition : Int := 3
  probe : Probe
  stageTransitionType : StageTransition
  steamGenerators : SteamGenerators
  probeAdded : Bool := false
  timerStartOnDetect : Bool := false
  vent : Vent := {}
  stepType : String := "stage"
deriving DecidableEq

/-- Model of `Stage.check_mutual_exclusivity`, the `model_validator(mode='after')`:
`if self.heatingElements.is_bottom_only() and
self.temperatureBulbs.dry.setpoint.celsius > 180: raise`.  Python's `and`
short-circuits, so `self.temperatureBulbs.dry` is dereferenced exactly when the
elements are bottom-only; when `dry` is `None` (wet mode) that dereference
raises `AttributeError`, which pydantic surfaces as a failed construction. -/
def Stage.check_mutual_exclusivity (self : Stage) : Except String Stage :=
  if self.heatingElements.is_bottom_only then
    match self.temperatureBulbs.dry with
    | none => .error "AttributeError: NoneType object has no attribute setpoint"
    | some d =>
        if 180 < d.setpoint.celsius then
          .error "Temperature can not exceed 180 when bottom element only"
        else .ok self
  else .ok self

/-- Construction of a `Stage`: pydantic validates the one direct field bound
(`rackPosition = Field(ge=1, le=5)`; the nested models were validated at their
own construction) and then runs the `model_validator`. -/
def Stage.construct (id : Nat) (title description : String) (ty : StageType)
    (userActionRequired : Bool) (temperatureBulbs : TempBulb)
    (heatingElements : HeatingElements) (fan : Fan) (rackPosition : Int)
    (probe : Probe) (stageTransitionType : StageTransition)
    (steamGenerators : SteamGenerators) (probeAdded timerStartOnDetect : Bool)
    (vent : Vent) : Except String Stage :=
  if 1 ≤ rackPosition ∧ rackPosition ≤ 5 then
    Stage.check_mutual_exclusivity
      { id, title, description, type := ty, userActionRequired,
        temperatureBulbs, heatingElements, fan, rackPosition, probe,
        stageTransitionType, steamGenerators, probeAdded, timerStartOnDetect,
        vent }
  else .error "rackPosition must be between 1 and 5"

/-! ## Sous-vide cook command (`cooks.py` / `controller.py`,
`start_sous_vide_cook`) -/

/-- The payload of the `CMD_APC_START` command document. -/
structure SousVidePayload where
  cookerId : String
  type : String
  targetTemperature : ℚ
  unit : String
  timer : Int
deriving DecidableEq

/-- The `CMD_APC_START` command document. -/
structure ApcStartCommand where
  command : String
  requestId : String
  payload : SousVidePayload
deriving DecidableEq

/-- The Fahrenheit-to-Celsius conversion
`temp_celsius = (temp - 32) * 5/9`. -/
def fahrenheit_to_celsius (f : ℚ) : ℚ :=
  (f - 32) * 5 / 9

/-- Python `int()` truncation toward zero, applied to
`timer_minutes * 60`. -/
def python_int (q : ℚ) : Int :=
  if 0 ≤ q then ⌊q⌋ else -⌊-q⌋

/-- Model of `start_sous_vide_cook` after the numeric inputs have been read: the
per-unit ceiling checks (95 °C / 203 °F, checked in the entered unit, `return`
on failure modelled as `none`), the timer conversion, the unit conversion to
Celsius, and the command document that is sent. -/
def start_sous_vide_cook (temperature_unit : String) (temp timer_minutes : ℚ)
    (cookerId device_type requestId : String) : Option ApcStartCommand :=
  if temperature_unit = "C" ∧ 95 < temp then none
  else if temperature_unit = "F" ∧ 203 < temp then none
  else
    some { command := "CMD_APC_START",
           requestId,
           payload := { cookerId,
                        type := device_type,
                        targetTemperature :=
                          if temperature_unit = "C" then temp
                          else fahrenheit_to_celsius temp,
                        unit := "C",
                        timer := python_int (timer_minutes * 60) } }

/-! ## Helper lemmas -/

lemma strStartsWith_iff (pre s : String) :
    strStartsWith pre s = true ↔ ∃ t, pre.data ++ t = s.data := by
  unfold strStartsWith
  rw [ List.isPrefixOf_iff_prefix]
  exact Iff.rfl

lemma find?_mono {α : Type} {p : α → Bool} {l₁ l₂ : List α} (h : l₁ <+: l₂)
    {a : α} (hf : l₁.find? p = some a) : l₂.find? p = some a := by
  obtain ⟨t, rfl⟩ := h
  rw [List.find?_append, hf]
  rfl

lemma isPrefix_drop {α : Type} {l₁ l₂ : List α} (h : l₁ <+: l₂) (n : Nat) :
    l₁.drop n <+: l₂.drop n := by
  obtain ⟨t, rfl⟩ := h
  rw [List.drop_append_eq_append_drop]
  exact ⟨_, rfl⟩

lemma chain_head_getLast? {α : Type} {l : List (List α)} {a full : List α}
    (hchain : List.Chain' (· <+: ·) (a :: l))
    (hlast : (a :: l).getLast? = some full) : a <+: full := by
  induction l generalizing a with
  | nil =>
      simp only [List.getLast?_singleton, Option.some.injEq] at hlast
      exact hlast ▸ List.prefix_refl a
  | cons c l' ih =>
      have hp := List.chain'_cons.mp hchain
      exact hp.1.trans (ih hp.2 (by simpa using hlast))

/-- On a monotone trace of history snapshots whose final snapshot is the full
history, the polling loop returns exactly the first classified match among the
entries at or beyond `n` of the full history (and times out exactly when there
is none). -/
lemma send_wait_eq_find (snaps : List (List WsData)) :
    ∀ (full : List WsData) (n : Nat), List.Chain' (· <+: ·) snaps →
      snaps.getLast? = some full →
      send_command_and_wait_for_response snaps n
        = (full.drop n).find? (fun m => isResponseMatch m.command) := by
  induction snaps with
  | nil => intro full n _ hlast; simp at hlast
  | cons h rest ih =>
      intro full n hchain hlast
      cases rest with
      | nil =>
          have hfull : h = full := by simpa using hlast
          subst hfull
          cases hf : (h.drop n).find? (fun m => isResponseMatch m.command) with
          | some m => simp [send_command_and_wait_for_response, hf]
          | none => simp [send_command_and_wait_for_response, hf]
      | cons h' rest' =>
          have hpair := List.chain'_cons.mp hchain
          have hlast' : (h' :: rest').getLast? = some full := by simpa using hlast
          have ihh := ih full n hpair.2 hlast'
          have hpre : h <+: full := chain_head_getLast? hchain hlast
          cases hf : (h.drop n).find? (fun m => isResponseMatch m.command) with
          | none => simpa [send_command_and_wait_for_response, hf] using ihh
          | some m =>
              have hfull : (full.drop n).find? (fun m => isResponseMatch m.command)
                  = some m :=
                find?_mono (isPrefix_drop hpre n) hf
              simp [send_command_and_wait_for_response, hf, hfull]

lemma isResponseMatch_of_cmd_state {s : String}
    (h : strStartsWith "CMD_STATE" s = true) : isResponseMatch s = false := by
  have hresp : strStartsWith "RESPONSE" s = false := by
    cases hr : strStartsWith "RESPONSE" s with
    | false => rfl
    | true =>
        obtain ⟨u, hu⟩ := (strStartsWith_iff _ _).mp hr
        obtain ⟨t, ht⟩ := (strStartsWith_iff _ _).mp h
        have he : "RESPONSE".data ++ u = "CMD_STATE".data ++ t := hu.trans ht.symm
        rw [show "RESPONSE".data = 'R' :: "ESPONSE".data from rfl,
            show "CMD_STATE".data = 'C' :: "MD_STATE".data from rfl] at he
        simp only [List.cons_append, List.cons.injEq] at he
        exact absurd he.1 (by decide)
  have hexp : (s == "EVENT_EXPORT_READY") = false := by
    cases hx : (s == "EVENT_EXPORT_READY") with
    | false => rfl
    | true =>
        have hs := eq_of_beq hx
        subst hs
        exact absurd h (by decide)
  simp [isResponseMatch, hresp, h, hexp]

/-! ## C2 -/

/-- C2: if every message appended to the history after the send has a command
starting with the state-update marker `CMD_STATE`, then
`send_command_and_wait_for_response` returns the timeout failure result — a
state-update echo never satisfies the response match. -/
theorem send_wait_state_echoes_time_out (pre post : List WsData)
    (snaps : List (List WsData))
    (hchain : List.Chain' (· <+: ·) snaps)
    (hlast : snaps.getLast? = some (pre ++ post))
    (hpost : ∀ m ∈ post, strStartsWith "CMD_STATE" m.command = true) :
    send_command_and_wait_for_response snaps pre.length = none := by
  rw [send_wait_eq_find snaps (pre ++ post) pre.length hchain hlast,
      show (pre ++ post).drop pre.length = post from by simp]
  rw [List.find?_eq_none]
  intro m hm
  simp [isResponseMatch_of_cmd_state (hpost m hm)]

theorem send_wait_state_echoes_time_out_witness :
    (∀ m ∈ [({ command := "CMD_STATE_APO" } : WsData)],
        strStartsWith "CMD_STATE" m.command = true)
    ∧ send_command_and_wait_for_response
        [[({ command := "CMD_STATE_APO" } : WsData)]] 0 = none :=
  ⟨by decide,
   send_wait_state_echoes_time_out [] [{ command := "CMD_STATE_APO" }]
     [[{ command := "CMD_STATE_APO" }]] (List.chain'_singleton _) rfl (by decide)⟩

/-! ## C3 -/

/-- C3 (counterexample): a post-send message whose command starts with
`RESPONSE` is appended, yet the call returns a different message — an earlier
post-send command echo (`CMD_APO_START`) satisfies the classifier first, so the
claim "returns that message" is false as stated. -/
theorem send_wait_response_not_returned_cex :
    strStartsWith "RESPONSE" "RESPONSE_OK" = true
    ∧ ({ command := "RESPONSE_OK" } : WsData)
        ∈ [({ command := "CMD_APO_START" } : WsData), { command := "RESPONSE_OK" }]
    ∧ send_command_and_wait_for_response
        [[({ command := "CMD_APO_START" } : WsData), { command := "RESPONSE_OK" }]] 0
        = some { command := "CMD_APO_START" }
    ∧ ({ command := "CMD_APO_START" } : WsData) ≠ { command := "RESPONSE_OK" } := by
  refine ⟨by decide, by decide, rfl, by decide⟩

/-- C3 (amended): if a message whose command starts with `RESPONSE` is appended
to the history after the send, the call returns a success result before the
timeout elapses, and the returned message is the earliest post-send entry the
classifier accepts; it is that `RESPONSE`-prefixed message itself whenever it
is the earliest classified entry. -/
theorem send_wait_response_gives_success (pre post : List WsData)
    (snaps : List (List WsData))
    (hchain : List.Chain' (· <+: ·) snaps)
    (hlast : snaps.getLast? = some (pre ++ post))
    (m : WsData) (hm : m ∈ post)
    (hr : strStartsWith "RESPONSE" m.command = true) :
    (∃ r, send_command_and_wait_for_response snaps pre.length = some r
        ∧ isResponseMatch r.command = true)
    ∧ (post.find? (fun x => isResponseMatch x.command) = some m →
        send_command_and_wait_for_response snaps pre.length = some m) := by
  have key : send_command_and_wait_for_response snaps pre.length
      = post.find? (fun x => isResponseMatch x.command) := by
    rw [send_wait_eq_find snaps (pre ++ post) pre.length hchain hlast,
        show (pre ++ post).drop pre.length = post from by simp]
  have hmatch : isResponseMatch m.command = true := by
    simp [isResponseMatch, hr]
  constructor
  · cases hf : post.find? (fun x => isResponseMatch x.command) with
    | none => exact absurd hmatch (by simpa using List.find?_eq_none.mp hf m hm)
    | some r =>
        have hpr := List.find?_some hf
        exact ⟨r, key.trans hf, hpr⟩
  · intro h
    rw [key, h]

theorem send_wait_response_gives_success_witness :
    (∃ r, send_command_and_wait_for_response
        [[({ command := "RESPONSE_OK" } : WsData)]] 0 = some r
        ∧ isResponseMatch r.command = true)
    ∧ ([({ command := "RESPONSE_OK" } : WsData)].find?
          (fun x => isResponseMatch x.command)
        = some { command := "RESPONSE_OK" } →
        send_command_and_wait_for_response
          [[({ command := "RESPONSE_OK" } : WsData)]] 0
          = some { command := "RESPONSE_OK" }) :=
  send_wait_response_gives_success [] [{ command := "RESPONSE_OK" }]
    [[{ command := "RESPONSE_OK" }]] (List.chain'_singleton _) rfl
    { command := "RESPONSE_OK" } (by decide) (by decide)

/-! ## C4 -/

/-- C4: with `N = pre.length` recorded before the send, the call's result is
exactly the first (earliest-appended) entry at index `N` or beyond that the
classifier accepts (`RESPONSE` prefix, or a `CMD_` echo that is not a
`CMD_STATE` state-update echo, or `EVENT_EXPORT_READY`), and `none` (timeout)
when there is none — entries appended before the send (the arbitrary `pre`)
never influence the result. -/
theorem send_wait_first_match_after_initial_count (pre post : List WsData)
    (snaps : List (List WsData))
    (hchain : List.Chain' (· <+: ·) snaps)
    (hlast : snaps.getLast? = some (pre ++ post)) :
    send_command_and_wait_for_response snaps pre.length
      = post.find? (fun m => isResponseMatch m.command) := by
  rw [send_wait_eq_find snaps (pre ++ post) pre.length hchain hlast,
      show (pre ++ post).drop pre.length = post from by simp]

theorem send_wait_first_match_after_initial_count_witness :
    send_command_and_wait_for_response
      [[({ command := "EVENT_APO_STATE" } : WsData)],
       [({ command := "EVENT_APO_STATE" } : WsData),
        { command := "CMD_STATE_APO" }, { command := "RESPONSE_OK" }]] 1
      = some { command := "RESPONSE_OK" } :=
  send_wait_first_match_after_initial_count
    [{ command := "EVENT_APO_STATE" }]
    [{ command := "CMD_STATE_APO" }, { command := "RESPONSE_OK" }]
    [[{ command := "EVENT_APO_STATE" }],
     [{ command := "EVENT_APO_STATE" },
      { command := "CMD_STATE_APO" }, { command := "RESPONSE_OK" }]]
    (List.chain'_cons.mpr
      ⟨⟨[{ command := "CMD_STATE_APO" }, { command := "RESPONSE_OK" }], rfl⟩,
       List.chain'_singleton _⟩)
    rfl

/-! ## C1 -/

/-- C1: contrary to the claim, a single inbound frame whose text is not valid
JSON terminates the listener loop.  The `JSONDecodeError` escapes the inner
`try` (which catches only `asyncio.TimeoutError`) and is caught by the
`except Exception` wrapped around the whole `while True`, which logs and lets
the coroutine return.  Evaluating the model at that failing input: after one
malformed frame the listener is terminated, and a well-formed frame arriving
next is never appended to the history. -/
theorem listener_malformed_frame_terminates :
    (continuous_message_listener {} [ListenerEvent.frame none]).terminated = true
    ∧ continuous_message_listener {}
        [ListenerEvent.frame none,
         ListenerEvent.frame (some { command := "RESPONSE_OK" })]
      = { message_history := [], devices := [], terminated := true } := by
  exact ⟨rfl, rfl⟩

/-! ## C7 -/

lemma any_id_eq_true {devices : List Device} {cid : String}
    (d : Device) (hd : d ∈ devices) (hid : d.id = cid) :
    (devices.any fun x => x.id == cid) = true :=
  List.any_eq_true.mpr ⟨d, hd, by simp [hid]⟩

lemma add_device_nodup {devices : List Device} {defaultName family : String}
    {desc : DeviceDescriptor} (h : (devices.map Device.id).Nodup) :
    ((add_device devices defaultName family desc).map Device.id).Nodup := by
  unfold add_device
  cases ha : devices.any (fun d => d.id == desc.cookerId) with
  | true => rw [if_pos rfl]; exact h
  | false =>
      rw [if_neg (by simp)]
      have hnotin : desc.cookerId ∉ devices.map Device.id := by
        intro hmem
        obtain ⟨d, hd, hid⟩ := List.mem_map.mp hmem
        exact absurd (any_id_eq_true d hd hid) (by simp [ha])
      rw [List.map_append]
      refine List.Nodup.append h (List.nodup_singleton _) ?_
      intro a ha1 ha2
      simp only [List.map_cons, List.map_nil, List.mem_singleton] at ha2
      exact hnotin (ha2 ▸ ha1)

lemma foldl_add_device_nodup {devices : List Device} {defaultName family : String}
    (descs : List DeviceDescriptor) (h : (devices.map Device.id).Nodup) :
    (((descs.foldl (fun ds desc => add_device ds defaultName family desc)
        devices)).map Device.id).Nodup := by
  induction descs generalizing devices with
  | nil => exact h
  | cons d ds ih => exact ih (add_device_nodup h)

lemma process_device_discovery_nodup {devices : List Device} {data : WsData}
    (h : (devices.map Device.id).Nodup) :
    ((process_device_discovery devices data).map Device.id).Nodup := by
  unfold process_device_discovery
  split
  · exact foldl_add_device_nodup _ h
  · split
    · exact foldl_add_device_nodup _ h
    · exact h

/-- C7: processing discovery events preserves pairwise-distinct device
identifiers; a descriptor whose `cookerId` is already known is dropped without
overwriting; and one event carrying two descriptors with the same `cookerId`
yields exactly one device entry, built from the first-seen descriptor's
fields. -/
theorem process_device_discovery_dedup :
    (∀ (devices : List Device) (events : List WsData),
        (devices.map Device.id).Nodup →
        ((events.foldl process_device_discovery devices).map Device.id).Nodup)
    ∧ (∀ (devices : List Device) (defaultName family : String)
        (desc : DeviceDescriptor), (∃ d ∈ devices, d.id = desc.cookerId) →
        add_device devices defaultName family desc = devices)
    ∧ (∀ desc1 desc2 : DeviceDescriptor, desc2.cookerId = desc1.cookerId →
        process_device_discovery []
            { command := "EVENT_APC_WIFI_LIST", payload := some [desc1, desc2] }
          = [{ id := desc1.cookerId,
               name := desc1.name.getD "Anova Precision Cooker",
               type := "APC",
               device_type := desc1.dtype.getD "unknown" }]) := by
  refine ⟨?_, ?_, ?_⟩
  · intro devices events h
    induction events generalizing devices with
    | nil => exact h
    | cons e es ih => exact ih _ (process_device_discovery_nodup h)
  · intro devices defaultName family desc hknown
    obtain ⟨d, hd, hid⟩ := hknown
    unfold add_device
    rw [if_pos (any_id_eq_true d hd hid)]
  · intro desc1 desc2 hsame
    have h1 : add_device [] "Anova Precision Cooker" "APC" desc1
        = [{ id := desc1.cookerId,
             name := desc1.name.getD "Anova Precision Cooker",
             type := "APC",
             device_type := desc1.dtype.getD "unknown" }] := rfl
    have h2 : add_device
        [{ id := desc1.cookerId,
           name := desc1.name.getD "Anova Precision Cooker",
           type := "APC",
           device_type := desc1.dtype.getD "unknown" }]
        "Anova Precision Cooker" "APC" desc2
        = [{ id := desc1.cookerId,
             name := desc1.name.getD "Anova Precision Cooker",
             type := "APC",
             device_type := desc1.dtype.getD "unknown" }] := by
      unfold add_device
      rw [if_pos (any_id_eq_true
        { id := desc1.cookerId,
          name := desc1.name.getD "Anova Precision Cooker",
          type := "APC",
          device_type := desc1.dtype.getD "unknown" } (by simp) hsame.symm)]
    unfold process_device_discovery
    rw [if_pos (by rfl)]
    show [desc1, desc2].foldl
        (fun ds desc => add_device ds "Anova Precision Cooker" "APC" desc) [] = _
    rw [List.foldl_cons, List.foldl_cons, List.foldl_nil, h1, h2]

theorem process_device_discovery_dedup_witness :
    ((([{ command := "EVENT_APC_WIFI_LIST",
          payload := some [{ cookerId := "ck1", name := some "A" },
                           { cookerId := "ck1", name := some "B" }] }] :
          List WsData).foldl process_device_discovery []).map Device.id).Nodup
    ∧ add_device [{ id := "ck1", name := "A", type := "APC",
                    device_type := "unknown" }] "Anova Precision Cooker" "APC"
        { cookerId := "ck1", name := some "B" }
      = [{ id := "ck1", name := "A", type := "APC", device_type := "unknown" }]
    ∧ process_device_discovery []
        { command := "EVENT_APC_WIFI_LIST",
          payload := some [{ cookerId := "ck1", name := some "A" },
                           { cookerId := "ck1", name := some "B" }] }
      = [{ id := "ck1", name := "A", type := "APC", device_type := "unknown" }] :=
  ⟨process_device_discovery_dedup.1 [] _ List.nodup_nil,
   process_device_discovery_dedup.2.1 _ "Anova Precision Cooker" "APC"
     { cookerId := "ck1", name := some "B" }
     ⟨{ id := "ck1", name := "A", type := "APC", device_type := "unknown" },
      by decide, rfl⟩,
   process_device_discovery_dedup.2.2 { cookerId := "ck1", name := some "A" }
     { cookerId := "ck1", name := some "B" } rfl⟩

/-! ## C8 -/

lemma process_device_discovery_of_other {devices : List Device} {m : WsData}
    (h : m.command ≠ "EVENT_APC_WIFI_LIST" ∧ m.command ≠ "EVENT_APO_WIFI_LIST") :
    process_device_discovery devices m = devices := by
  unfold process_device_discovery
  rw [if_neg (by simp [h.1]), if_neg (by simp [h.2])]

/-- C8: `wait_for_device_discovery` is total (never raises, never reports an
error): if the 5-second deadline elapses (the poll trace is exhausted) with no
discovery events logged, the device list is left empty and control returns
normally; and as soon as the device list is non-empty after a poll iteration,
the wait returns it at once, never consuming the remaining iterations of the
timeout window. -/
theorem wait_for_device_discovery_empty_and_early :
    (∀ snapshots : List (List WsData),
        (∀ s ∈ snapshots, ∀ m ∈ s,
            m.command ≠ "EVENT_APC_WIFI_LIST"
            ∧ m.command ≠ "EVENT_APO_WIFI_LIST") →
        wait_for_device_discovery snapshots [] = [])
    ∧ (∀ (h : List WsData) (rest : List (List WsData)) (devices : List Device),
        (h.foldl process_device_discovery devices).isEmpty = false →
        wait_for_device_discovery (h :: rest) devices
          = h.foldl process_device_discovery devices) := by
  constructor
  · intro snapshots hno
    induction snapshots with
    | nil => rfl
    | cons s rest ih =>
        have hfold : s.foldl process_device_discovery ([] : List Device) = [] := by
          have : ∀ m ∈ s, ∀ devices : List Device,
              process_device_discovery devices m = devices := by
            intro m hm devices
            exact process_device_discovery_of_other (hno s (by simp) m hm)
          clear hno ih
          induction s with
          | nil => rfl
          | cons m ms ihs =>
              rw [List.foldl_cons, this m (by simp)]
              exact ihs fun x hx => this x (by simp [hx])
        rw [wait_for_device_discovery, hfold]
        exact ih fun s hs => hno s (by simp [hs])
  · intro h rest devices hne
    rw [wait_for_device_discovery]
    simp only [hne]
    rfl

theorem wait_for_device_discovery_empty_and_early_witness :
    wait_for_device_discovery [[({ command := "EVENT_APO_STATE" } : WsData)]] []
      = []
    ∧ wait_for_device_discovery
        [[({ command := "EVENT_APC_WIFI_LIST",
             payload := some [{ cookerId := "ck1" }] } : WsData)],
         [({ command := "EVENT_APO_STATE" } : WsData)]] []
      = [({ command := "EVENT_APC_WIFI_LIST",
            payload := some [{ cookerId := "ck1" }] } : WsData)].foldl
          process_device_discovery [] :=
  ⟨wait_for_device_discovery_empty_and_early.1
     [[{ command := "EVENT_APO_STATE" }]] (by decide),
   wait_for_device_discovery_empty_and_early.2
     [{ command := "EVENT_APC_WIFI_LIST", payload := some [{ cookerId := "ck1" }] }]
     [[{ command := "EVENT_APO_STATE" }]] [] (by decide)⟩

/-! ## C9 -/

lemma wet_bulb_ok {t : ℚ} {sp : SetPoint}
    (hsp : SetPoint.construct t = .ok sp) :
    TempBulb.wet_bulb t
      = TempBulb.construct BulbModes.WET none (some { setpoint := sp }) := by
  unfold TempBulb.wet_bulb
  rw [hsp]

lemma wet_bulb_err {t : ℚ} {e : String}
    (hsp : SetPoint.construct t = .error e) :
    TempBulb.wet_bulb t = .error e := by
  unfold TempBulb.wet_bulb
  rw [hsp]

lemma construct_wet_eq (sp : SetPoint) :
    TempBulb.construct BulbModes.WET none (some { setpoint := sp })
      = if 100 < sp.celsius ∨ sp.celsius < 25 then
          .error "temp must be between 25-100 C when in sous vide mode"
        else .ok { mode := BulbModes.WET, dry := none,
                   wet := some { setpoint := sp } } := by
  unfold TempBulb.construct TempBulb.check_mutual_exclusivity
  rw [if_neg (by simp), if_neg (by simp)]

lemma setPoint_ok_celsius {t : ℚ} {sp : SetPoint}
    (hsp : SetPoint.construct t = .ok sp) : sp.celsius = t := by
  unfold SetPoint.construct at hsp
  by_cases hb : 25 ≤ t ∧ t ≤ 250
  · rw [if_pos hb] at hsp
    injection hsp with h
    rw [← h]
  · rw [if_neg hb] at hsp
    exact absurd hsp (by simp)

/-- C9: wet-mode bulb construction fails whenever the celsius setpoint is above
100 or below 25 and succeeds (producing the bulb, never clamping) for every
setpoint in 25-100; construction also fails when both the dry and the wet
setpoint are supplied (in either mode), and when the setpoint selected by the
mode is missing. -/
theorem temp_bulb_wet_validation :
    (∀ t : ℚ, 100 < t ∨ t < 25 → (TempBulb.wet_bulb t).isOk = false)
    ∧ (∀ t : ℚ, 25 ≤ t → t ≤ 100 →
        TempBulb.wet_bulb t
          = .ok { mode := BulbModes.WET, dry := none,
                  wet := some { setpoint := { celsius := t } } })
    ∧ (∀ (mode : BulbModes) (d w : TempSetPoint),
        (TempBulb.construct mode (some d) (some w)).isOk = false)
    ∧ (∀ w : Option TempSetPoint,
        (TempBulb.construct BulbModes.DRY none w).isOk = false)
    ∧ (∀ d : Option TempSetPoint,
        (TempBulb.construct BulbModes.WET d none).isOk = false) := by
  refine ⟨?_, ?_, ?_, ?_, ?_⟩
  · intro t h
    cases hsp : SetPoint.construct t with
    | error e => rw [wet_bulb_err hsp]; rfl
    | ok sp =>
        have hcel : 100 < sp.celsius ∨ sp.celsius < 25 := by
          rw [setPoint_ok_celsius hsp]
          exact h
        rw [wet_bulb_ok hsp, construct_wet_eq, if_pos hcel]
        rfl
  · intro t h25 h100
    have hsp : SetPoint.construct t = .ok { celsius := t } := by
      unfold SetPoint.construct
      rw [if_pos ⟨h25, h100.trans (by norm_num)⟩]
    rw [wet_bulb_ok hsp, construct_wet_eq,
        if_neg (not_or.mpr ⟨not_lt.mpr h100, not_lt.mpr h25⟩)]
  · intro mode d w
    cases mode with
    | DRY =>
        unfold TempBulb.construct TempBulb.check_mutual_exclusivity
        rw [if_pos ⟨rfl, Or.inl (by simp)⟩]
        rfl
    | WET =>
        unfold TempBulb.construct TempBulb.check_mutual_exclusivity
        rw [if_neg (by simp), if_pos ⟨rfl, Or.inl (by simp)⟩]
        rfl
  · intro w
    unfold TempBulb.construct TempBulb.check_mutual_exclusivity
    rw [if_pos ⟨rfl, Or.inr rfl⟩]
    rfl
  · intro d
    unfold TempBulb.construct TempBulb.check_mutual_exclusivity
    rw [if_neg (by simp), if_pos ⟨rfl, Or.inr rfl⟩]
    rfl

theorem temp_bulb_wet_validation_witness :
    (TempBulb.wet_bulb 101).isOk = false
    ∧ TempBulb.wet_bulb 60
        = .ok { mode := BulbModes.WET, dry := none,
                wet := some { setpoint := { celsius := 60 } } }
    ∧ (TempBulb.construct BulbModes.WET (some { setpoint := { celsius := 30 } })
        (some { setpoint := { celsius := 40 } })).isOk = false
    ∧ (TempBulb.construct BulbModes.DRY none none).isOk = false
    ∧ (TempBulb.construct BulbModes.WET none none).isOk = false :=
  ⟨temp_bulb_wet_validation.1 101 (Or.inl (by norm_num)),
   temp_bulb_wet_validation.2.1 60 (by norm_num) (by norm_num),
   temp_bulb_wet_validation.2.2.1 BulbModes.WET { setpoint := { celsius := 30 } }
     { setpoint := { celsius := 40 } },
   temp_bulb_wet_validation.2.2.2.1 none,
   temp_bulb_wet_validation.2.2.2.2 none⟩

/-! ## C5 -/

/-- C5: for every Stage whose heating elements are bottom-only and whose
temperature bulb is dry-mode, construction fails at a dry setpoint of 181 °C
and succeeds at 180 °C — the 180 °C hardware limit is an inclusive bound. -/
theorem stage_bottom_only_dry_boundary
    (he : HeatingElements) (hbo : he.is_bottom_only = true)
    (tb180 tb181 : TempBulb)
    (h180 : TempBulb.dry_bulb 180 = .ok tb180)
    (h181 : TempBulb.dry_bulb 181 = .ok tb181)
    (id : Nat) (title description : String) (ty : StageType) (uar : Bool)
    (fan : Fan) (rack : Int) (hrack : 1 ≤ rack ∧ rack ≤ 5) (probe : Probe)
    (tr : StageTransition) (sg : SteamGenerators) (pa tsd : Bool)
    (vent : Vent) :
    (Stage.construct id title description ty uar tb181 he fan rack probe tr sg
        pa tsd vent).isOk = false
    ∧ Stage.construct id title description ty uar tb180 he fan rack probe tr sg
        pa tsd vent
      = .ok { id, title, description, type := ty, userActionRequired := uar,
              temperatureBulbs := tb180, heatingElements := he, fan,
              rackPosition := rack, probe, stageTransitionType := tr,
              steamGenerators := sg, probeAdded := pa,
              timerStartOnDetect := tsd, vent } := by
  have e181 : TempBulb.dry_bulb 181
      = .ok { mode := BulbModes.DRY,
              dry := some { setpoint := { celsius := 181 } }, wet := none } := rfl
  have e180 : TempBulb.dry_bulb 180
      = .ok { mode := BulbModes.DRY,
              dry := some { setpoint := { celsius := 180 } }, wet := none } := rfl
  have ht181 : tb181
      = { mode := BulbModes.DRY,
          dry := some { setpoint := { celsius := 181 } }, wet := none } := by
    injection (h181.symm.trans e181)
  have ht180 : tb180
      = { mode := BulbModes.DRY,
          dry := some { setpoint := { celsius := 180 } }, wet := none } := by
    injection (h180.symm.trans e180)
  subst ht181 ht180
  constructor
  · unfold Stage.construct Stage.check_mutual_exclusivity
    rw [if_pos hrack]
    simp only [hbo, if_pos]
    rw [if_pos (by norm_num : (180 : ℚ) < 181)]
    rfl
  · unfold Stage.construct Stage.check_mutual_exclusivity
    rw [if_pos hrack]
    simp only [hbo, if_pos]
    rw [if_neg (by norm_num : ¬ (180 : ℚ) < 180)]

theorem stage_bottom_only_dry_boundary_witness :
    (Stage.construct 0 "t" "d" StageType.COOK false
        { mode := BulbModes.DRY,
          dry := some { setpoint := { celsius := 181 } }, wet := none }
        HeatingElements.bottom_only { speed := 50 } 3
        { setpoint := { celsius := 60 } } StageTransition.AUTO
        SteamGenerators.no_steam false false {}).isOk = false
    ∧ Stage.construct 0 "t" "d" StageType.COOK false
        { mode := BulbModes.DRY,
          dry := some { setpoint := { celsius := 180 } }, wet := none }
        HeatingElements.bottom_only { speed := 50 } 3
        { setpoint := { celsius := 60 } } StageTransition.AUTO
        SteamGenerators.no_steam false false {}
      = .ok { id := 0, title := "t", description := "d", type := StageType.COOK,
              userActionRequired := false,
              temperatureBulbs :=
                { mode := BulbModes.DRY,
                  dry := some { setpoint := { celsius := 180 } }, wet := none },
              heatingElements := HeatingElements.bottom_only,
              fan := { speed := 50 }, rackPosition := 3,
              probe := { setpoint := { celsius := 60 } },
              stageTransitionType := StageTransition.AUTO,
              steamGenerators := SteamGenerators.no_steam, probeAdded := false,
              timerStartOnDetect := false, vent := {} } :=
  stage_bottom_only_dry_boundary HeatingElements.bottom_only rfl
    { mode := BulbModes.DRY,
      dry := some { setpoint := { celsius := 180 } }, wet := none }
    { mode := BulbModes.DRY,
      dry := some { setpoint := { celsius := 181 } }, wet := none }
    rfl rfl 0 "t" "d" StageType.COOK false { speed := 50 } 3 (by norm_num)
    { setpoint := { celsius := 60 } } StageTransition.AUTO
    SteamGenerators.no_steam false false {}

/-! ## C6 -/

/-- C6: for every Stage input whose heating elements are bottom-only and whose
temperature bulb is wet-mode, construction raises and no Stage value is
produced: after the bottom-only test the safety validator dereferences the dry
setpoint unconditionally, and in wet mode `dry` is `None`, so the dereference
itself fails (even though the 180 °C rule targets dry-mode stages). -/
theorem stage_bottom_only_wet_mode_fails
    (t : ℚ) (tb : TempBulb) (hwet : TempBulb.wet_bulb t = .ok tb)
    (he : HeatingElements) (hbo : he.is_bottom_only = true)
    (id : Nat) (title description : String) (ty : StageType) (uar : Bool)
    (fan : Fan) (rack : Int) (hrack : 1 ≤ rack ∧ rack ≤ 5) (probe : Probe)
    (tr : StageTransition) (sg : SteamGenerators) (pa tsd : Bool)
    (vent : Vent) :
    Stage.construct id title description ty uar tb he fan rack probe tr sg
        pa tsd vent
      = .error "AttributeError: NoneType object has no attribute setpoint" := by
  have hdry : tb.dry = none := by
    cases hsp : SetPoint.construct t with
    | error e =>
        rw [wet_bulb_err hsp] at hwet
        exact absurd hwet (by simp)
    | ok sp =>
        rw [wet_bulb_ok hsp, construct_wet_eq] at hwet
        by_cases hr : 100 < sp.celsius ∨ sp.celsius < 25
        · rw [if_pos hr] at hwet
          exact absurd hwet (by simp)
        · rw [if_neg hr] at hwet
          injection hwet with h
          rw [← h]
  unfold Stage.construct Stage.check_mutual_exclusivity
  rw [if_pos hrack]
  simp only [hbo, if_pos]
  rw [show ({ id, title, description, type := ty, userActionRequired := uar,
              temperatureBulbs := tb, heatingElements := he, fan,
              rackPosition := rack, probe, stageTransitionType := tr,
              steamGenerators := sg, probeAdded := pa,
              timerStartOnDetect := tsd, vent } : Stage).temperatureBulbs.dry
      = tb.dry from rfl, hdry]

theorem stage_bottom_only_wet_mode_fails_witness :
    Stage.construct 0 "t" "d" StageType.COOK false
        { mode := BulbModes.WET, dry := none,
          wet := some { setpoint := { celsius := 60 } } }
        HeatingElements.bottom_only { speed := 50 } 3
        { setpoint := { celsius := 60 } } StageTransition.AUTO
        SteamGenerators.no_steam false false {}
      = .error "AttributeError: NoneType object has no attribute setpoint" :=
  stage_bottom_only_wet_mode_fails 60
    { mode := BulbModes.WET, dry := none,
      wet := some { setpoint := { celsius := 60 } } }
    rfl HeatingElements.bottom_only rfl 0 "t" "d" StageType.COOK false
    { speed := 50 } 3 (by norm_num) { setpoint := { celsius := 60 } }
    StageTransition.AUTO SteamGenerators.no_steam false false {}

/-! ## C10 -/

/-- C10: converting 203 °F with `(f - 32) * 5/9` yields a Celsius value within
0.05 of 95.0 (it is exactly 95), 203 °F passes the 95 °C / 203 °F sous-vide
ceiling check without tripping it, and the built `CMD_APC_START` command
carries that Celsius value (unit `"C"`) on the wire. -/
theorem fahrenheit_203_sous_vide :
    |fahrenheit_to_celsius 203 - 95| ≤ 5 / 100
    ∧ ∃ c : ApcStartCommand,
        start_sous_vide_cook "F" 203 60 "cooker-1" "APO" "req-1" = some c
        ∧ c.payload.targetTemperature = fahrenheit_to_celsius 203
        ∧ |c.payload.targetTemperature - 95| ≤ 5 / 100
        ∧ c.payload.unit = "C" := by
  have h95 : fahrenheit_to_celsius 203 = 95 := by
    unfold fahrenheit_to_celsius
    norm_num
  refine ⟨by rw [h95]; norm_num, ?_⟩
  refine ⟨_, rfl, rfl, ?_, rfl⟩
  show |fahrenheit_to_celsius 203 - 95| ≤ 5 / 100
  rw [h95]
  norm_num

end AnovaOven
